import Mathlib

/-!
Verification of the metadata-compilation pipeline of `spanner_orm/admin/metadata.py`
(`DatabaseMetadata`): catalog reads (`_tables`, `_indexes`), model synthesis
(`models`) and the schema-change appliers (`column_update`, `create_table`,
`index_update`).

Modelling conventions:
* A Python `dict` is an insertion-ordered association list `Dict α β`.
  `Dict.insert` replaces the value at the first occurrence of an existing key in
  place (Python `d[k] = v` on a present key) and appends otherwise;
  `Dict.get?` is `d[k]` returning `none` where Python raises `KeyError`.
* The catalog fetch primitive (`ColumnSchema.where` / `IndexSchema.where` /
  `IndexColumnSchema.where`, implemented outside this module) is a parameter
  `CatalogFetch τ`: for each relation, a function of the transaction handle and
  the requested condition list, returning the fetched rows.  The literal
  condition lists of the source are reproduced as `tablesConds`, `icConds`,
  `idxConds`.
* The schema-change request objects (`ColumnUpdate` etc., outside this module)
  are a `SchemaChange`: a variant tag (the Python class, checked by
  `isinstance`), a target table, and `validate` / `ddl` behaviour.  `validate`
  returning `false` models `validate` raising.
* Each apply method returns `Except MetadataError Unit` together with the list
  of DDL strings passed to `DatabaseAdminApi.update_schema` during the call, so
  "the admin submission collaborator is never called" is "the list is empty".
* `MetadataError` labels the distinct failure sites of the source by the names
  the specification gives them: `missingPrimaryKey` is the `KeyError` at
  `indexes[table_name]['PRIMARY_KEY']`, `unknownTable` the `KeyError` at
  `cls.models()[schema_change.table()]`, `tableAlreadyExists` the
  `assert schema_change.table() not in all_models`, `schemaChangeTypeMismatch`
  the `assert isinstance(...)`, and `invalidSchemaChange` a raising
  `schema_change.validate`.
-/

/-- A Python `dict`: an insertion-ordered association list. -/
abbrev Dict (α β : Type) : Type := List (α × β)

/-- Write `d[k] = v`: replace the value at the first occurrence of `k`, else append. -/
def Dict.insert {α β : Type} [DecidableEq α] : Dict α β → α → β → Dict α β
  | [], k, v => [(k, v)]
  | p :: rest, k, v => if p.1 = k then (k, v) :: rest else p :: Dict.insert rest k v

/-- Read `d[k]` as an `Option` (Python raises `KeyError` on `none`). -/
def Dict.get? {α β : Type} [DecidableEq α] : Dict α β → α → Option β
  | [], _ => none
  | p :: rest, k => if p.1 = k then some p.2 else Dict.get? rest k

/-- Read `d[k]` with a default: the `defaultdict` read. -/
def Dict.getD {α β : Type} [DecidableEq α] (d : Dict α β) (k : α) (dflt : β) : β :=
  (Dict.get? d k).getD dflt

/-- Keys of the dict, in insertion order (`d.keys()`). -/
def Dict.keys {α β : Type} (d : Dict α β) : List α :=
  d.map Prod.fst

/-- A row of the `information_schema` columns relation, as consumed here:
`table_catalog`, `table_schema`, `table_name`, `column_name`, and the field
type computed by `ColumnSchema.type()` (opaque to this module). -/
structure ColumnSchemaRow where
  table_catalog : String
  table_schema : String
  table_name : String
  column_name : String
  type : String
  deriving DecidableEq, Repr

/-- A row of the index-columns relation: `ordinal_position = none` models SQL
`NULL` (the column is not part of the index key). -/
structure IndexColumnSchemaRow where
  table_catalog : String
  table_schema : String
  table_name : String
  index_name : String
  column_name : String
  ordinal_position : Option Int
  deriving DecidableEq, Repr

/-- A row of the indexes relation. -/
structure IndexSchemaRow where
  table_catalog : String
  table_schema : String
  table_name : String
  index_name : String
  index_type : String
  is_unique : Bool
  index_state : String
  deriving DecidableEq, Repr

/-- Sort direction (`OrderType` of `spanner_orm.condition`). -/
inductive OrderType where
  | ASC
  | DESC
  deriving DecidableEq, Repr

/-- A literal value appearing in a condition of this module: a string constant
or Python `None`. -/
inductive CondValue where
  | str (s : String)
  | null
  deriving DecidableEq, Repr

/-- The condition objects this module builds: `EqualityCondition`,
`InequalityCondition` and `OrderByCondition`. -/
inductive Condition where
  | equality (column : String) (value : CondValue)
  | inequality (column : String) (value : CondValue)
  | orderBy (orderings : List (String × OrderType))
  deriving DecidableEq, Repr

/-- The external catalog fetch primitive: the `where` classmethods of
`ColumnSchema`, `IndexColumnSchema` and `IndexSchema`, each taking the optional
transaction handle (of abstract type `τ`) and the requested conditions. -/
structure CatalogFetch (τ : Type) where
  columnWhere : Option τ → List Condition → List ColumnSchemaRow
  indexColumnWhere : Option τ → List Condition → List IndexColumnSchemaRow
  indexWhere : Option τ → List Condition → List IndexSchemaRow

/-- The conditions of `ColumnSchema.where` in `_tables`. -/
def tablesConds : List Condition :=
  [Condition.equality "table_catalog" (CondValue.str ""),
   Condition.equality "table_schema" (CondValue.str "")]

/-- The conditions of `IndexColumnSchema.where` in `_indexes`. -/
def icConds : List Condition :=
  [Condition.equality "table_catalog" (CondValue.str ""),
   Condition.equality "table_schema" (CondValue.str ""),
   Condition.inequality "ordinal_position" CondValue.null,
   Condition.orderBy [("ordinal_position", OrderType.ASC)]]

/-- The conditions of `IndexSchema.where` in `_indexes`. -/
def idxConds : List Condition :=
  [Condition.equality "table_catalog" (CondValue.str ""),
   Condition.equality "table_schema" (CondValue.str "")]

/-- One entry of the index map: the dict
`{'columns': ..., 'type': ..., 'unique': ..., 'state': ...}` built in
`_indexes`. -/
structure IndexEntry where
  columns : List String
  type : String
  unique : Bool
  state : String
  deriving DecidableEq, Repr

/-- The observable behaviour of a model class synthesized by `models`:
`primary_index_keys()`, `schema()` and `table()` all return fixed values. -/
structure ModelDescriptor where
  primary_index_keys : List String
  schema : Dict String String
  table : String
  deriving DecidableEq, Repr

/-- The distinct failure sites of `DatabaseMetadata`, labelled by the names the
specification gives them (see the module docstring for the correspondence to
the `KeyError` / `AssertionError` / `validate` sites of the source). -/
inductive MetadataError where
  | missingPrimaryKey
  | unknownTable
  | tableAlreadyExists
  | invalidSchemaChange
  | schemaChangeTypeMismatch
  deriving DecidableEq, Repr

/-- The Python class of a schema-change request (`isinstance` tag). -/
inductive UpdateKind where
  | columnUpdate
  | createTableUpdate
  | indexUpdate
  deriving DecidableEq, Repr

/-- A schema-change request object: variant tag, `table()`, `validate` and
`ddl`.  `validate`/`ddl` receive `some model` when the source passes a model
and `none` when called without arguments (`create_table` path); `validate`
returning `false` models it raising. -/
structure SchemaChange where
  kind : UpdateKind
  table : String
  validate : Option ModelDescriptor → Bool
  ddl : Option ModelDescriptor → String

/-- The write `m[k1][k2] = v` on a `defaultdict(dict)`: reading `m[k1]`
defaults to the empty dict, whose updated form is stored back under `k1`. -/
def nestedInsert {κ κ' β : Type} [DecidableEq κ] [DecidableEq κ']
    (m : Dict κ (Dict κ' β)) (k1 : κ) (k2 : κ') (v : β) : Dict κ (Dict κ' β) :=
  Dict.insert m k1 (Dict.insert (Dict.getD m k1 []) k2 v)

/-- Translation of `DatabaseMetadata._tables`: fold the fetched column rows into
`table → column → type` (`tables[schema.table_name][schema.column_name] =
schema.type()` on a `defaultdict(dict)`). -/
def DatabaseMetadata._tables {τ : Type} (F : CatalogFetch τ)
    (transaction : Option τ := none) : Dict String (Dict String String) :=
  let schemas := F.columnWhere transaction tablesConds
  schemas.foldl
    (fun tables schema =>
      nestedInsert tables schema.table_name schema.column_name schema.type)
    []

/-- The first fold of `DatabaseMetadata._indexes`: group the fetched
index-column rows into `(table_name, index_name) → [column_name, ...]`,
appending in fetch order (`index_columns[key].append(schema.column_name)` on a
`defaultdict(list)`). -/
def indexColumnsFold (rows : List IndexColumnSchemaRow) :
    Dict (String × String) (List String) :=
  rows.foldl
    (fun index_columns schema =>
      Dict.insert index_columns (schema.table_name, schema.index_name)
        (Dict.getD index_columns (schema.table_name, schema.index_name) []
          ++ [schema.column_name]))
    []

/-- The second fold of `DatabaseMetadata._indexes`: one entry per fetched
index row, with `columns` looked up in the first fold's result (defaulting to
`[]`). -/
def indexesFold (index_columns : Dict (String × String) (List String))
    (index_schemas : List IndexSchemaRow) : Dict String (Dict String IndexEntry) :=
  index_schemas.foldl
    (fun indexes schema =>
      nestedInsert indexes schema.table_name schema.index_name
        { columns := Dict.getD index_columns (schema.table_name, schema.index_name) []
          type := schema.index_type
          unique := schema.is_unique
          state := schema.index_state })
    []

/-- Translation of `DatabaseMetadata._indexes`: both fetches use the same transaction handle;
the index-column fetch requests `ordinal_position != None` and ascending
order by `ordinal_position`. -/
def DatabaseMetadata._indexes {τ : Type} (F : CatalogFetch τ)
    (transaction : Option τ := none) : Dict String (Dict String IndexEntry) :=
  indexesFold (indexColumnsFold (F.indexColumnWhere transaction icConds))
    (F.indexWhere transaction idxConds)

/-- The loop body of `DatabaseMetadata.models`: for one `(table_name, schema)`
entry of `tables`, evaluate `indexes[table_name]['PRIMARY_KEY']['columns']`
(the outer subscript on a `defaultdict` defaults to the empty dict; a missing
`'PRIMARY_KEY'` key is the `KeyError` labelled `missingPrimaryKey`) and record
the synthesized model class under `table_name`. -/
def modelsStep (indexes : Dict String (Dict String IndexEntry))
    (results : Except MetadataError (Dict String ModelDescriptor))
    (entry : String × Dict String String) :
    Except MetadataError (Dict String ModelDescriptor) :=
  match results with
  | Except.error e => Except.error e
  | Except.ok results =>
    match Dict.get? (Dict.getD indexes entry.1 []) "PRIMARY_KEY" with
    | none => Except.error MetadataError.missingPrimaryKey
    | some primary_index =>
      Except.ok (Dict.insert results entry.1
        { primary_index_keys := primary_index.columns
          schema := entry.2
          table := entry.1 })

/-- The loop of `DatabaseMetadata.models`, factored over the two maps. -/
def modelsFromMaps (tables : Dict String (Dict String String))
    (indexes : Dict String (Dict String IndexEntry)) :
    Except MetadataError (Dict String ModelDescriptor) :=
  tables.foldl (modelsStep indexes) (Except.ok [])

/-- Translation of `DatabaseMetadata.models`: both catalog reads receive the same
`transaction` argument, then the model classes are synthesized per table. -/
def DatabaseMetadata.models {τ : Type} (F : CatalogFetch τ)
    (transaction : Option τ := none) :
    Except MetadataError (Dict String ModelDescriptor) :=
  modelsFromMaps (DatabaseMetadata._tables F transaction)
    (DatabaseMetadata._indexes F transaction)

/-- Translation of `DatabaseMetadata.column_update`.  Returns the outcome and the list of DDL
strings submitted to `DatabaseAdminApi.update_schema`. -/
def DatabaseMetadata.column_update {τ : Type} (F : CatalogFetch τ)
    (schema_change : SchemaChange) : Except MetadataError Unit × List String :=
  if schema_change.kind ≠ UpdateKind.columnUpdate then
    (Except.error MetadataError.schemaChangeTypeMismatch, [])
  else
    match DatabaseMetadata.models F none with
    | Except.error e => (Except.error e, [])
    | Except.ok ms =>
      match Dict.get? ms schema_change.table with
      | none => (Except.error MetadataError.unknownTable, [])
      | some model =>
        if schema_change.validate (some model) then
          (Except.ok (), [schema_change.ddl (some model)])
        else
          (Except.error MetadataError.invalidSchemaChange, [])

/-- Translation of `DatabaseMetadata.create_table`. -/
def DatabaseMetadata.create_table {τ : Type} (F : CatalogFetch τ)
    (schema_change : SchemaChange) : Except MetadataError Unit × List String :=
  if schema_change.kind ≠ UpdateKind.createTableUpdate then
    (Except.error MetadataError.schemaChangeTypeMismatch, [])
  else
    match DatabaseMetadata.models F none with
    | Except.error e => (Except.error e, [])
    | Except.ok all_models =>
      if (Dict.get? all_models schema_change.table).isSome then
        (Except.error MetadataError.tableAlreadyExists, [])
      else if schema_change.validate none then
        (Except.ok (), [schema_change.ddl none])
      else
        (Except.error MetadataError.invalidSchemaChange, [])

/-- Translation of `DatabaseMetadata.index_update`. -/
def DatabaseMetadata.index_update {τ : Type} (F : CatalogFetch τ)
    (schema_change : SchemaChange) : Except MetadataError Unit × List String :=
  if schema_change.kind ≠ UpdateKind.indexUpdate then
    (Except.error MetadataError.schemaChangeTypeMismatch, [])
  else
    match DatabaseMetadata.models F none with
    | Except.error e => (Except.error e, [])
    | Except.ok ms =>
      match Dict.get? ms schema_change.table with
      | none => (Except.error MetadataError.unknownTable, [])
      | some model =>
        if schema_change.validate (some model) then
          (Except.ok (), [schema_change.ddl (some model)])
        else
          (Except.error MetadataError.invalidSchemaChange, [])

/-- Last element of `l` satisfying `p`: the row whose write survives a
fold in which later rows overwrite earlier ones. -/
def lastMatch {α : Type} (p : α → Bool) (l : List α) : Option α :=
  l.reverse.find? p

/-- Ordinal position of an index-column row, read as an integer (rows the
claims apply it to always carry a present ordinal). -/
abbrev ordOf (r : IndexColumnSchemaRow) : Int :=
  r.ordinal_position.getD 0

/-- Comparison of index-column rows by ordinal position, non-strict. -/
abbrev ordLE (a b : IndexColumnSchemaRow) : Prop :=
  ordOf a ≤ ordOf b

/-- Comparison of index-column rows by ordinal position, strict. -/
abbrev ordLT (a b : IndexColumnSchemaRow) : Prop :=
  ordOf a < ordOf b

/-- The filter requested of the index-column fetch: empty `table_catalog` and
`table_schema`, and `ordinal_position != None`. -/
def icRequestFilter (r : IndexColumnSchemaRow) : Bool :=
  decide (r.table_catalog = "") && decide (r.table_schema = "") &&
    r.ordinal_position.isSome

/-- Selects the column rows of one (table, column) cell. -/
def colKey (t c : String) (r : ColumnSchemaRow) : Bool :=
  decide (r.table_name = t) && decide (r.column_name = c)

/-- Selects the index-column rows of one (table, index) pair. -/
def icKey (t i : String) (r : IndexColumnSchemaRow) : Bool :=
  decide (r.table_name = t) && decide (r.index_name = i)

/-- Selects the index rows of one (table, index) pair. -/
def idxKey (t i : String) (r : IndexSchemaRow) : Bool :=
  decide (r.table_name = t) && decide (r.index_name = i)

/-- Concrete catalog row: column `Users.id` of type `INT64`. -/
def wColId : ColumnSchemaRow :=
  { table_catalog := "", table_schema := "", table_name := "Users",
    column_name := "id", type := "INT64" }

/-- Concrete catalog row: column `Users.name` of type `STRING`. -/
def wColName : ColumnSchemaRow :=
  { table_catalog := "", table_schema := "", table_name := "Users",
    column_name := "name", type := "STRING" }

/-- Concrete catalog row: `id` at ordinal 1 of index `PRIMARY_KEY`. -/
def wIcId : IndexColumnSchemaRow :=
  { table_catalog := "", table_schema := "", table_name := "Users",
    index_name := "PRIMARY_KEY", column_name := "id", ordinal_position := some 1 }

/-- Concrete catalog row: the `PRIMARY_KEY` index of `Users`. -/
def wIdxPK : IndexSchemaRow :=
  { table_catalog := "", table_schema := "", table_name := "Users",
    index_name := "PRIMARY_KEY", index_type := "INDEX", is_unique := true,
    index_state := "READ_WRITE" }

/-- Concrete fetch: one table `Users(id, name)` with primary key `[id]`. -/
def wFetch : CatalogFetch Unit :=
  { columnWhere := fun _ _ => [wColId, wColName]
    indexColumnWhere := fun _ _ => [wIcId]
    indexWhere := fun _ _ => [wIdxPK] }

/-- The column map of `Users` produced by `wFetch`. -/
def wSchemaUsers : Dict String String :=
  [("id", "INT64"), ("name", "STRING")]

/-- The model map produced by `wFetch`. -/
def wModels : Dict String ModelDescriptor :=
  [("Users",
    { primary_index_keys := ["id"], schema := wSchemaUsers, table := "Users" })]

/-- Concrete catalog row: `name` at ordinal 1 of index `ByName`. -/
def wIcByNameName : IndexColumnSchemaRow :=
  { table_catalog := "", table_schema := "", table_name := "Users",
    index_name := "ByName", column_name := "name", ordinal_position := some 1 }

/-- Concrete catalog row: `id` with absent ordinal in index `ByName` (a storing
column, not part of the key). -/
def wIcByNameId : IndexColumnSchemaRow :=
  { table_catalog := "", table_schema := "", table_name := "Users",
    index_name := "ByName", column_name := "id", ordinal_position := none }

/-- Concrete catalog row: `email` at ordinal 2 of index `ByName`. -/
def wIcByNameEmail : IndexColumnSchemaRow :=
  { table_catalog := "", table_schema := "", table_name := "Users",
    index_name := "ByName", column_name := "email", ordinal_position := some 2 }

/-- The underlying index-column rows of the `ByName` scenario, in scrambled
order and including the absent-ordinal row. -/
def wAllIcRows : List IndexColumnSchemaRow :=
  [wIcByNameId, wIcByNameEmail, wIcByNameName]

/-- Concrete fetch whose index-column read returns the `ByName` rows filtered
and sorted as requested. -/
def wFetch1 : CatalogFetch Unit :=
  { columnWhere := fun _ _ => []
    indexColumnWhere := fun _ _ => [wIcByNameName, wIcByNameEmail]
    indexWhere := fun _ _ => [] }

/-- Concrete fetch: a table whose catalog carries no index at all. -/
def wFetchNoPK : CatalogFetch Unit :=
  { columnWhere := fun _ _ => [wColId]
    indexColumnWhere := fun _ _ => []
    indexWhere := fun _ _ => [] }

/-- Concrete fetch: an index row with no index-column rows. -/
def wFetch9 : CatalogFetch Unit :=
  { columnWhere := fun _ _ => []
    indexColumnWhere := fun _ _ => []
    indexWhere := fun _ _ => [wIdxPK] }

/-- Concrete fetch over transaction handles `Bool`, constant in the handle. -/
def wFetchA : CatalogFetch Bool :=
  { columnWhere := fun _ _ => [wColId]
    indexColumnWhere := fun _ _ => [wIcId]
    indexWhere := fun _ _ => [wIdxPK] }

/-- Concrete fetch agreeing with `wFetchA` at every handle except
`some true`, where it answers differently. -/
def wFetchB : CatalogFetch Bool :=
  { columnWhere := fun t _ => if t = some true then [wColName] else [wColId]
    indexColumnWhere := fun t _ => if t = some true then [] else [wIcId]
    indexWhere := fun t _ => if t = some true then [] else [wIdxPK] }

/-- A column update targeting the absent table `Orders`. -/
def scColOrders : SchemaChange :=
  { kind := UpdateKind.columnUpdate, table := "Orders",
    validate := fun _ => true, ddl := fun _ => "ALTER TABLE Orders" }

/-- An index update targeting the absent table `Orders`. -/
def scIdxOrders : SchemaChange :=
  { kind := UpdateKind.indexUpdate, table := "Orders",
    validate := fun _ => true, ddl := fun _ => "CREATE INDEX ByName" }

/-- A create-table update targeting the existing table `Users`. -/
def scCreateUsers : SchemaChange :=
  { kind := UpdateKind.createTableUpdate, table := "Users",
    validate := fun _ => true, ddl := fun _ => "CREATE TABLE Users" }

/-- A column update on `Users` whose validation rejects. -/
def scColUsersBad : SchemaChange :=
  { kind := UpdateKind.columnUpdate, table := "Users",
    validate := fun _ => false, ddl := fun _ => "ALTER TABLE Users" }

/-- A create-table update on `Orders` whose validation rejects. -/
def scCreateOrdersBad : SchemaChange :=
  { kind := UpdateKind.createTableUpdate, table := "Orders",
    validate := fun _ => false, ddl := fun _ => "CREATE TABLE Orders" }

/-- An index update on `Users` whose validation rejects. -/
def scIdxUsersBad : SchemaChange :=
  { kind := UpdateKind.indexUpdate, table := "Users",
    validate := fun _ => false, ddl := fun _ => "CREATE INDEX ByAge" }

theorem Dict.get?_insert_self {α β : Type} [DecidableEq α]
    (d : Dict α β) (k : α) (v : β) :
    Dict.get? (Dict.insert d k v) k = some v := by
  induction d with
  | nil => simp [Dict.insert, Dict.get?]
  | cons p rest ih =>
    by_cases h : p.1 = k <;> simp [Dict.insert, Dict.get?, h, ih]

theorem Dict.get?_insert_ne {α β : Type} [DecidableEq α]
    (d : Dict α β) (k k' : α) (v : β) (h : k' ≠ k) :
    Dict.get? (Dict.insert d k' v) k = Dict.get? d k := by
  induction d with
  | nil => simp [Dict.insert, Dict.get?, h]
  | cons p rest ih =>
    by_cases hp : p.1 = k' <;> simp [Dict.insert, Dict.get?, hp, h, ih]

theorem Dict.keys_insert {α β : Type} [DecidableEq α]
    (d : Dict α β) (k : α) (v : β) :
    Dict.keys (Dict.insert d k v)
      = if k ∈ Dict.keys d then Dict.keys d else Dict.keys d ++ [k] := by
  induction d with
  | nil => simp [Dict.insert, Dict.keys]
  | cons p rest ih =>
    by_cases h : p.1 = k
    · simp [Dict.insert, Dict.keys, h]
    · simp only [Dict.insert, if_neg h, Dict.keys, List.map_cons] at ih ⊢
      rw [ih]
      have hne : ¬ k = p.1 := fun hk => h hk.symm
      by_cases hm : k ∈ List.map Prod.fst rest <;> simp [hm, hne]

theorem Dict.nodup_keys_insert {α β : Type} [DecidableEq α]
    (d : Dict α β) (k : α) (v : β) (h : (Dict.keys d).Nodup) :
    (Dict.keys (Dict.insert d k v)).Nodup := by
  rw [Dict.keys_insert]
  by_cases hm : k ∈ Dict.keys d
  · simpa [hm] using h
  · simp only [hm, if_false]
    simpa [List.nodup_append] using ⟨h, hm⟩

theorem find?_eq_head?_filter {α : Type} (p : α → Bool) (l : List α) :
    l.find? p = (l.filter p).head? := by
  induction l with
  | nil => rfl
  | cons a t ih =>
    by_cases h : p a
    · rw [List.find?_cons_of_pos _ h, List.filter_cons_of_pos h, List.head?_cons]
    · rw [List.find?_cons_of_neg _ h, List.filter_cons_of_neg h, ih]

theorem lastMatch_eq_getLast?_filter {α : Type} (p : α → Bool) (l : List α) :
    lastMatch p l = (l.filter p).getLast? := by
  rw [lastMatch, find?_eq_head?_filter, List.filter_reverse, List.head?_reverse]

theorem lastMatch_cons {α : Type} (p : α → Bool) (r : α) (l : List α) :
    lastMatch p (r :: l)
      = (lastMatch p l).or (if p r then some r else none) := by
  simp only [lastMatch, List.reverse_cons, List.find?_append]
  by_cases h : p r
  · simp [List.find?_cons_of_pos _ h, h]
  · simp [List.find?_cons_of_neg _ h, h]

theorem nestedFold_get {α κ κ' β : Type} [DecidableEq κ] [DecidableEq κ']
    (key1 : α → κ) (key2 : α → κ') (val : α → β) (rows : List α) :
    ∀ (acc : Dict κ (Dict κ' β)) (t : κ) (c : κ'),
    Dict.get? (Dict.getD
        (rows.foldl (fun m r => nestedInsert m (key1 r) (key2 r) (val r)) acc)
        t []) c
      = (Option.map val
          (lastMatch (fun r => decide (key1 r = t) && decide (key2 r = c)) rows)).or
        (Dict.get? (Dict.getD acc t []) c) := by
  induction rows with
  | nil => intro acc t c; simp [lastMatch]
  | cons r rest ih =>
    intro acc t c
    rw [List.foldl_cons, ih, lastMatch_cons, Option.map_or', Option.or_assoc]
    congr 1
    by_cases h1 : key1 r = t
    · subst h1
      rw [show Dict.getD
            (nestedInsert acc (key1 r) (key2 r) (val r)) (key1 r) []
          = Dict.insert (Dict.getD acc (key1 r) []) (key2 r) (val r) by
        simp [nestedInsert, Dict.getD, Dict.get?_insert_self]]
      by_cases h2 : key2 r = c
      · subst h2
        simp [Dict.get?_insert_self]
      · rw [Dict.get?_insert_ne _ _ _ _ h2]
        simp [h2]
    · rw [show Dict.getD
            (nestedInsert acc (key1 r) (key2 r) (val r)) t []
          = Dict.getD acc t [] by
        simp [nestedInsert, Dict.getD, Dict.get?_insert_ne _ _ _ _ h1]]
      simp [h1]

theorem nestedFold_keys_nodup {α κ κ' β : Type} [DecidableEq κ] [DecidableEq κ']
    (key1 : α → κ) (key2 : α → κ') (val : α → β) (rows : List α) :
    ∀ (acc : Dict κ (Dict κ' β)), (Dict.keys acc).Nodup →
    (Dict.keys
      (rows.foldl (fun m r => nestedInsert m (key1 r) (key2 r) (val r)) acc)).Nodup := by
  induction rows with
  | nil => intro acc h; simpa using h
  | cons r rest ih =>
    intro acc h
    exact ih _ (Dict.nodup_keys_insert _ _ _ h)

theorem icFold_getD (rows : List IndexColumnSchemaRow) :
    ∀ (acc : Dict (String × String) (List String)) (t i : String),
    Dict.getD
      (rows.foldl (fun index_columns schema =>
        Dict.insert index_columns (schema.table_name, schema.index_name)
          (Dict.getD index_columns (schema.table_name, schema.index_name) []
            ++ [schema.column_name])) acc) (t, i) []
      = Dict.getD acc (t, i) []
        ++ (rows.filter (icKey t i)).map IndexColumnSchemaRow.column_name := by
  induction rows with
  | nil => intro acc t i; simp
  | cons s rest ih =>
    intro acc t i
    rw [List.foldl_cons, ih]
    by_cases h : s.table_name = t ∧ s.index_name = i
    · obtain ⟨h1, h2⟩ := h
      subst h1
      subst h2
      have hkey : icKey s.table_name s.index_name s = true := by simp [icKey]
      rw [List.filter_cons_of_pos hkey, List.map_cons]
      have hins : Dict.getD
          (Dict.insert acc (s.table_name, s.index_name)
            (Dict.getD acc (s.table_name, s.index_name) [] ++ [s.column_name]))
          (s.table_name, s.index_name) []
          = Dict.getD acc (s.table_name, s.index_name) [] ++ [s.column_name] := by
        simp [Dict.getD, Dict.get?_insert_self]
      rw [hins, List.append_assoc, List.singleton_append]
    · have hkey : ¬ icKey t i s = true := by
        simp only [icKey, Bool.and_eq_true, decide_eq_true_eq]
        exact h
      rw [List.filter_cons_of_neg hkey]
      have hne : (s.table_name, s.index_name) ≠ (t, i) := by
        simpa [Prod.ext_iff] using h
      have hins : Dict.getD
          (Dict.insert acc (s.table_name, s.index_name)
            (Dict.getD acc (s.table_name, s.index_name) [] ++ [s.column_name]))
          (t, i) []
          = Dict.getD acc (t, i) [] := by
        simp [Dict.getD, Dict.get?_insert_ne _ _ _ _ hne]
      rw [hins]

theorem indexColumnsFold_getD (rows : List IndexColumnSchemaRow) (t i : String) :
    Dict.getD (indexColumnsFold rows) (t, i) []
      = (rows.filter (icKey t i)).map IndexColumnSchemaRow.column_name := by
  have h := icFold_getD rows [] t i
  simpa [indexColumnsFold, Dict.getD, Dict.get?] using h

theorem modelsFold_error (indexes : Dict String (Dict String IndexEntry))
    (l : List (String × Dict String String)) (e : MetadataError) :
    l.foldl (modelsStep indexes) (Except.error e) = Except.error e := by
  induction l with
  | nil => rfl
  | cons p rest ih => simpa [modelsStep] using ih

theorem modelsFold_get_untouched (indexes : Dict String (Dict String IndexEntry))
    (l : List (String × Dict String String)) :
    ∀ (acc m : Dict String ModelDescriptor),
    l.foldl (modelsStep indexes) (Except.ok acc) = Except.ok m →
    ∀ k, k ∉ l.map Prod.fst → Dict.get? m k = Dict.get? acc k := by
  induction l with
  | nil =>
    intro acc m hm k _
    simp only [List.foldl_nil, Except.ok.injEq] at hm
    rw [hm]
  | cons p rest ih =>
    intro acc m hm k hk
    rw [List.foldl_cons] at hm
    cases hpk : Dict.get? (Dict.getD indexes p.1 []) "PRIMARY_KEY" with
    | none =>
      rw [show modelsStep indexes (Except.ok acc) p
            = Except.error MetadataError.missingPrimaryKey from by
          simp [modelsStep, hpk]] at hm
      rw [modelsFold_error] at hm
      cases hm
    | some e0 =>
      rw [show modelsStep indexes (Except.ok acc) p
            = Except.ok (Dict.insert acc p.1
                { primary_index_keys := e0.columns, schema := p.2, table := p.1 })
          from by simp [modelsStep, hpk]] at hm
      have h1 : k ∉ rest.map Prod.fst := fun hmem => hk (by simp [hmem])
      have h2 : p.1 ≠ k := fun he => hk (by simp [he])
      rw [ih _ _ hm k h1, Dict.get?_insert_ne _ _ _ _ h2]

theorem modelsFold_get (indexes : Dict String (Dict String IndexEntry))
    (l : List (String × Dict String String)) :
    ∀ (acc m : Dict String ModelDescriptor),
    (l.map Prod.fst).Nodup →
    l.foldl (modelsStep indexes) (Except.ok acc) = Except.ok m →
    ∀ t schema, Dict.get? l t = some schema →
    ∃ entry : IndexEntry,
      Dict.get? (Dict.getD indexes t []) "PRIMARY_KEY" = some entry ∧
      Dict.get? m t
        = some { primary_index_keys := entry.columns, schema := schema, table := t } := by
  induction l with
  | nil =>
    intro acc m _ _ t schema h
    simp [Dict.get?] at h
  | cons p rest ih =>
    intro acc m hnd hm t schema hget
    rw [List.map_cons] at hnd
    rw [List.foldl_cons] at hm
    cases hpk : Dict.get? (Dict.getD indexes p.1 []) "PRIMARY_KEY" with
    | none =>
      exfalso
      rw [show modelsStep indexes (Except.ok acc) p
            = Except.error MetadataError.missingPrimaryKey from by
          simp [modelsStep, hpk]] at hm
      rw [modelsFold_error] at hm
      cases hm
    | some e0 =>
      rw [show modelsStep indexes (Except.ok acc) p
            = Except.ok (Dict.insert acc p.1
                { primary_index_keys := e0.columns, schema := p.2, table := p.1 })
          from by simp [modelsStep, hpk]] at hm
      by_cases hp : p.1 = t
      · subst hp
        have hschema : p.2 = schema := by
          simpa [Dict.get?] using hget
        refine ⟨e0, hpk, ?_⟩
        have hk : p.1 ∉ rest.map Prod.fst := (List.nodup_cons.mp hnd).1
        rw [modelsFold_get_untouched indexes rest _ _ hm p.1 hk,
          Dict.get?_insert_self, hschema]
      · have hget' : Dict.get? rest t = some schema := by
          simpa [Dict.get?, hp] using hget
        exact ih _ _ (List.nodup_cons.mp hnd).2 hm t schema hget'

theorem modelsFold_keys (indexes : Dict String (Dict String IndexEntry))
    (l : List (String × Dict String String)) :
    ∀ (acc m : Dict String ModelDescriptor),
    (l.map Prod.fst).Nodup →
    (∀ k ∈ l.map Prod.fst, k ∉ Dict.keys acc) →
    l.foldl (modelsStep indexes) (Except.ok acc) = Except.ok m →
    Dict.keys m = Dict.keys acc ++ l.map Prod.fst := by
  induction l with
  | nil =>
    intro acc m _ _ hm
    simp only [List.foldl_nil, Except.ok.injEq] at hm
    simp [hm]
  | cons p rest ih =>
    intro acc m hnd hdisj hm
    rw [List.map_cons] at hnd hdisj ⊢
    rw [List.foldl_cons] at hm
    cases hpk : Dict.get? (Dict.getD indexes p.1 []) "PRIMARY_KEY" with
    | none =>
      exfalso
      rw [show modelsStep indexes (Except.ok acc) p
            = Except.error MetadataError.missingPrimaryKey from by
          simp [modelsStep, hpk]] at hm
      rw [modelsFold_error] at hm
      cases hm
    | some e0 =>
      rw [show modelsStep indexes (Except.ok acc) p
            = Except.ok (Dict.insert acc p.1
                { primary_index_keys := e0.columns, schema := p.2, table := p.1 })
          from by simp [modelsStep, hpk]] at hm
      have hp_not : p.1 ∉ Dict.keys acc := hdisj p.1 (by simp)
      have hkeys' : Dict.keys (Dict.insert acc p.1
            { primary_index_keys := e0.columns, schema := p.2, table := p.1 })
          = Dict.keys acc ++ [p.1] := by
        rw [Dict.keys_insert]
        simp [hp_not]
      have hd2 : ∀ k ∈ rest.map Prod.fst,
          k ∉ Dict.keys (Dict.insert acc p.1
            { primary_index_keys := e0.columns, schema := p.2, table := p.1 }) := by
        intro k hkmem
        rw [hkeys']
        simp only [List.mem_append, List.mem_singleton]
        rintro (hka | hkp)
        · exact hdisj k (by simp [hkmem]) hka
        · exact (List.nodup_cons.mp hnd).1 (hkp ▸ hkmem)
      have h := ih _ _ (List.nodup_cons.mp hnd).2 hd2 hm
      rw [h, hkeys', List.append_assoc, List.singleton_append]

theorem modelsFold_missing (indexes : Dict String (Dict String IndexEntry))
    (l : List (String × Dict String String)) :
    ∀ (acc : Dict String ModelDescriptor) (t : String) (schema : Dict String String),
    Dict.get? l t = some schema →
    Dict.get? (Dict.getD indexes t []) "PRIMARY_KEY" = none →
    l.foldl (modelsStep indexes) (Except.ok acc)
      = Except.error MetadataError.missingPrimaryKey := by
  induction l with
  | nil =>
    intro acc t schema h _
    simp [Dict.get?] at h
  | cons p rest ih =>
    intro acc t schema hget hpk
    rw [List.foldl_cons]
    by_cases hp : p.1 = t
    · subst hp
      rw [show modelsStep indexes (Except.ok acc) p
            = Except.error MetadataError.missingPrimaryKey from by
          simp [modelsStep, hpk]]
      exact modelsFold_error _ _ _
    · have hget' : Dict.get? rest t = some schema := by
        simpa [Dict.get?, hp] using hget
      cases hpk0 : Dict.get? (Dict.getD indexes p.1 []) "PRIMARY_KEY" with
      | none =>
        rw [show modelsStep indexes (Except.ok acc) p
              = Except.error MetadataError.missingPrimaryKey from by
            simp [modelsStep, hpk0]]
        exact modelsFold_error _ _ _
      | some e0 =>
        rw [show modelsStep indexes (Except.ok acc) p
              = Except.ok (Dict.insert acc p.1
                  { primary_index_keys := e0.columns, schema := p.2, table := p.1 })
            from by simp [modelsStep, hpk0]]
        exact ih _ t schema hget' hpk

theorem tables_keys_nodup {τ : Type} (F : CatalogFetch τ) (txn : Option τ) :
    (Dict.keys (DatabaseMetadata._tables F txn)).Nodup := by
  have h := nestedFold_keys_nodup (fun r : ColumnSchemaRow => r.table_name)
    (fun r => r.column_name) (fun r => r.type)
    (F.columnWhere txn tablesConds) [] (by simp [Dict.keys])
  simpa [DatabaseMetadata._tables] using h

/-- C8: for every sequence of ColumnSchema rows returned by the filtered
fetch, `_tables` produces the mapping in which the cell (t, c) holds the type
of the last fetched row with `table_name = t` and `column_name = c` (later
rows overwrite earlier ones) and is empty when no such row exists — so every
row's column appears under its own table and under no other table (second
conjunct: each fetched row's cell is populated). -/
theorem columns_read_grouping {τ : Type} (F : CatalogFetch τ) (txn : Option τ)
    (t c : String) :
    Dict.get? (Dict.getD (DatabaseMetadata._tables F txn) t []) c
      = Option.map ColumnSchemaRow.type
          (lastMatch (colKey t c) (F.columnWhere txn tablesConds))
    ∧ ∀ r ∈ F.columnWhere txn tablesConds,
        (Dict.get? (Dict.getD (DatabaseMetadata._tables F txn) r.table_name [])
          r.column_name).isSome := by
  have key : ∀ t' c', Dict.get? (Dict.getD (DatabaseMetadata._tables F txn) t' []) c'
      = Option.map ColumnSchemaRow.type
          (lastMatch (colKey t' c') (F.columnWhere txn tablesConds)) := by
    intro t' c'
    have h := nestedFold_get (fun r : ColumnSchemaRow => r.table_name)
      (fun r => r.column_name) (fun r => r.type)
      (F.columnWhere txn tablesConds) [] t' c'
    simpa [DatabaseMetadata._tables, colKey, Dict.getD, Dict.get?, Option.or_none]
      using h
  refine ⟨key t c, ?_⟩
  intro r hr
  rw [key r.table_name r.column_name]
  have hsome : (lastMatch (colKey r.table_name r.column_name)
      (F.columnWhere txn tablesConds)).isSome := by
    rw [lastMatch, List.find?_isSome]
    exact ⟨r, by simpa using hr, by simp [colKey]⟩
  obtain ⟨x, hx⟩ := Option.isSome_iff_exists.mp hsome
  rw [hx]
  rfl

/-- C9: an IndexSchema row `s` for a (table, index) pair for which the
index-column fetch (which requests present ordinals only) returned no row
yields the entry with an empty `columns` sequence and `type`, `unique`,
`state` taken from `s`. -/
theorem index_entry_empty_columns {τ : Type} (F : CatalogFetch τ)
    (txn : Option τ) (t i : String) (s : IndexSchemaRow)
    (hic : ∀ r ∈ F.indexColumnWhere txn icConds, icKey t i r = false)
    (hs : (F.indexWhere txn idxConds).filter (idxKey t i) = [s]) :
    Dict.get? (Dict.getD (DatabaseMetadata._indexes F txn) t []) i
      = some { columns := [], type := s.index_type, unique := s.is_unique,
               state := s.index_state } := by
  have hmem : s ∈ (F.indexWhere txn idxConds).filter (idxKey t i) := by
    rw [hs]
    exact List.mem_singleton.mpr rfl
  have hkey : s.table_name = t ∧ s.index_name = i := by
    have h := (List.mem_filter.mp hmem).2
    simpa [idxKey] using h
  have hcols : Dict.getD (indexColumnsFold (F.indexColumnWhere txn icConds))
      (t, i) [] = [] := by
    rw [indexColumnsFold_getD,
      List.filter_eq_nil_iff.mpr (fun r hr => by simp [hic r hr])]
    rfl
  have h : Dict.get? (Dict.getD (DatabaseMetadata._indexes F txn) t []) i
      = (Option.map (fun r : IndexSchemaRow =>
          ({ columns := Dict.getD
              (indexColumnsFold (F.indexColumnWhere txn icConds))
              (r.table_name, r.index_name) [],
             type := r.index_type, unique := r.is_unique,
             state := r.index_state } : IndexEntry))
          (lastMatch (fun r : IndexSchemaRow =>
              decide (r.table_name = t) && decide (r.index_name = i))
            (F.indexWhere txn idxConds))).or
        (Dict.get? (Dict.getD ([] : Dict String (Dict String IndexEntry)) t []) i) :=
    nestedFold_get _ _ _ _ [] t i
  rw [h]
  have hlast : lastMatch (fun r : IndexSchemaRow =>
      decide (r.table_name = t) && decide (r.index_name = i))
      (F.indexWhere txn idxConds) = some s := by
    rw [show (fun r : IndexSchemaRow =>
        decide (r.table_name = t) && decide (r.index_name = i)) = idxKey t i
      from rfl]
    rw [lastMatch_eq_getLast?_filter, hs]
    rfl
  rw [hlast]
  simp only [Option.map_some', Option.or_some]
  rw [hkey.1, hkey.2, hcols]

/-- C9 witness: an index row with no index-column rows at all yields an
entry with empty columns and the row's type, uniqueness and state. -/
theorem index_entry_empty_columns_witness :
    Dict.get? (Dict.getD (DatabaseMetadata._indexes wFetch9 none) "Users" [])
      "PRIMARY_KEY"
      = some { columns := [], type := "INDEX", unique := true,
               state := "READ_WRITE" } :=
  index_entry_empty_columns wFetch9 none "Users" "PRIMARY_KEY" wIdxPK
    (by intro r hr; cases hr) (by rfl)

/-- C2: when `models` succeeds, each table of the tables map yields exactly
one synthesized descriptor whose `primary_index_keys` is the `PRIMARY_KEY`
entry's column sequence from the index map, whose `schema` is the table's
column map, and whose `table` is the table name; and the model map's keys are
exactly the tables map's keys. -/
theorem models_descriptors {τ : Type} (F : CatalogFetch τ) (txn : Option τ)
    (m : Dict String ModelDescriptor)
    (hm : DatabaseMetadata.models F txn = Except.ok m) :
    (∀ t schema, Dict.get? (DatabaseMetadata._tables F txn) t = some schema →
      ∃ entry : IndexEntry,
        Dict.get? (Dict.getD (DatabaseMetadata._indexes F txn) t [])
          "PRIMARY_KEY" = some entry ∧
        Dict.get? m t
          = some { primary_index_keys := entry.columns, schema := schema,
                   table := t })
    ∧ Dict.keys m = Dict.keys (DatabaseMetadata._tables F txn) := by
  have hnd : ((DatabaseMetadata._tables F txn).map Prod.fst).Nodup :=
    tables_keys_nodup F txn
  constructor
  · intro t schema hget
    exact modelsFold_get (DatabaseMetadata._indexes F txn)
      (DatabaseMetadata._tables F txn) [] m hnd hm t schema hget
  · have h := modelsFold_keys (DatabaseMetadata._indexes F txn)
      (DatabaseMetadata._tables F txn) [] m hnd
      (by intro k _; simp [Dict.keys]) hm
    simpa [Dict.keys] using h

/-- C2 witness: on the concrete catalog `wFetch` (table `Users(id, name)`,
primary key `[id]`), the synthesized map holds exactly the `Users`
descriptor. -/
theorem models_descriptors_witness :
    Dict.get? wModels "Users"
      = some { primary_index_keys := ["id"], schema := wSchemaUsers,
               table := "Users" }
    ∧ Dict.keys wModels = Dict.keys (DatabaseMetadata._tables wFetch none) := by
  have h := models_descriptors wFetch none wModels (by rfl)
  refine ⟨?_, h.2⟩
  obtain ⟨entry, hentry, hget⟩ := h.1 "Users" wSchemaUsers (by rfl)
  have h0 : Dict.get? (Dict.getD (DatabaseMetadata._indexes wFetch none)
      "Users" []) "PRIMARY_KEY"
      = some ({ columns := ["id"], type := "INDEX", unique := true,
                state := "READ_WRITE" } : IndexEntry) := by rfl
  rw [h0] at hentry
  injection hentry with he
  subst he
  exact hget

/-- C3: a table present in the tables map whose `PRIMARY_KEY` lookup in the
index map fails (the table is absent from the index map — the `defaultdict`
yields the empty dict — or present without a `PRIMARY_KEY` entry) makes
`models` fail with the missing-primary-key error. -/
theorem models_missing_primary_key {τ : Type} (F : CatalogFetch τ)
    (txn : Option τ) (t : String) (schema : Dict String String)
    (hget : Dict.get? (DatabaseMetadata._tables F txn) t = some schema)
    (hpk : Dict.get? (Dict.getD (DatabaseMetadata._indexes F txn) t [])
      "PRIMARY_KEY" = none) :
    DatabaseMetadata.models F txn = Except.error MetadataError.missingPrimaryKey :=
  modelsFold_missing (DatabaseMetadata._indexes F txn)
    (DatabaseMetadata._tables F txn) [] t schema hget hpk

/-- C3 witness: a catalog with table `Users` and no index rows at all makes
`models` fail with the missing-primary-key error. -/
theorem models_missing_primary_key_witness :
    DatabaseMetadata.models wFetchNoPK none
      = Except.error MetadataError.missingPrimaryKey :=
  models_missing_primary_key wFetchNoPK none "Users" [("id", "INT64")]
    (by rfl) (by rfl)

/-- C1: provided the index-column fetch honors the requested filters (its
result is a permutation of the catalog rows with empty catalog/schema names
and present ordinal position) and the requested ascending order by ordinal
position, the sequence reconstructed for a (table, index) pair equals exactly
the column names of that pair's present-ordinal rows listed in ascending
ordinal order (`expected`: any arrangement of those rows that is strictly
ascending); rows with absent ordinal are excluded entirely. -/
theorem index_columns_reconstruction {τ : Type} (F : CatalogFetch τ)
    (txn : Option τ) (allRows expected : List IndexColumnSchemaRow)
    (t i : String)
    (hperm : List.Perm (F.indexColumnWhere txn icConds)
      (allRows.filter icRequestFilter))
    (hsorted : List.Sorted ordLE (F.indexColumnWhere txn icConds))
    (hexp : List.Perm expected
      ((allRows.filter icRequestFilter).filter (icKey t i)))
    (hexpsorted : List.Sorted ordLT expected) :
    Dict.getD (indexColumnsFold (F.indexColumnWhere txn icConds)) (t, i) []
      = expected.map IndexColumnSchemaRow.column_name := by
  have hpe : List.Perm ((F.indexColumnWhere txn icConds).filter (icKey t i))
      expected := (hperm.filter (icKey t i)).trans hexp.symm
  have hne_exp : expected.Pairwise (fun a b => ordOf a ≠ ordOf b) :=
    List.Pairwise.imp (fun h => ne_of_lt h) hexpsorted
  have hne_f : ((F.indexColumnWhere txn icConds).filter (icKey t i)).Pairwise
      (fun a b => ordOf a ≠ ordOf b) :=
    (List.Perm.pairwise_iff (fun h => Ne.symm h) hpe).mpr hne_exp
  have hle_f : ((F.indexColumnWhere txn icConds).filter (icKey t i)).Pairwise
      ordLE :=
    List.Pairwise.sublist (List.filter_sublist _) hsorted
  have hlt_f : ((F.indexColumnWhere txn icConds).filter (icKey t i)).Pairwise
      ordLT :=
    List.Pairwise.imp (fun h => lt_of_le_of_ne h.1 h.2)
      (List.Pairwise.and hle_f hne_f)
  haveI : IsAntisymm IndexColumnSchemaRow ordLT :=
    ⟨fun _ _ h1 h2 => absurd h2 (lt_asymm h1)⟩
  have heq : (F.indexColumnWhere txn icConds).filter (icKey t i) = expected :=
    List.eq_of_perm_of_sorted hpe hlt_f hexpsorted
  rw [indexColumnsFold_getD, heq]

/-- C1 witness: from catalog rows `(name, pos 1)`, `(id, pos absent)`,
`(email, pos 2)` of index `ByName` — scrambled in `wAllIcRows` — the fetch
returning the filtered, ascending-sorted rows reconstructs `[name, email]`. -/
theorem index_columns_reconstruction_witness :
    Dict.getD (indexColumnsFold (wFetch1.indexColumnWhere none icConds))
      ("Users", "ByName") [] = ["name", "email"] := by
  have h := index_columns_reconstruction wFetch1 none wAllIcRows
    [wIcByNameName, wIcByNameEmail] "Users" "ByName"
    (by decide) (by decide) (by decide) (by decide)
  simpa using h

/-- C4: a ColumnUpdate whose target table is absent from the freshly fetched
model map makes `column_update` fail with the unknown-table error and submit
no DDL; likewise an IndexUpdate under `index_update`. -/
theorem apply_update_unknown_table {τ : Type} (F : CatalogFetch τ)
    (sc1 sc2 : SchemaChange) (ms : Dict String ModelDescriptor)
    (h1 : sc1.kind = UpdateKind.columnUpdate)
    (h2 : sc2.kind = UpdateKind.indexUpdate)
    (hm : DatabaseMetadata.models F none = Except.ok ms)
    (ht1 : Dict.get? ms sc1.table = none)
    (ht2 : Dict.get? ms sc2.table = none) :
    DatabaseMetadata.column_update F sc1
      = (Except.error MetadataError.unknownTable, [])
    ∧ DatabaseMetadata.index_update F sc2
      = (Except.error MetadataError.unknownTable, []) := by
  constructor
  · simp [DatabaseMetadata.column_update, h1, hm, ht1]
  · simp [DatabaseMetadata.index_update, h2, hm, ht2]

/-- C4 witness: against the catalog holding only `Users`, a column update and
an index update on `Orders` fail with the unknown-table error and submit
nothing. -/
theorem apply_update_unknown_table_witness :
    DatabaseMetadata.column_update wFetch scColOrders
      = (Except.error MetadataError.unknownTable, [])
    ∧ DatabaseMetadata.index_update wFetch scIdxOrders
      = (Except.error MetadataError.unknownTable, []) :=
  apply_update_unknown_table wFetch scColOrders scIdxOrders wModels
    (by rfl) (by rfl) (by rfl) (by rfl) (by rfl)

/-- C5: a CreateTableUpdate whose target table is already present in the
freshly fetched model map makes `create_table` fail with the
table-already-exists error and submit no DDL. -/
theorem apply_create_table_exists {τ : Type} (F : CatalogFetch τ)
    (sc : SchemaChange) (ms : Dict String ModelDescriptor)
    (h1 : sc.kind = UpdateKind.createTableUpdate)
    (hm : DatabaseMetadata.models F none = Except.ok ms)
    (ht : (Dict.get? ms sc.table).isSome) :
    DatabaseMetadata.create_table F sc
      = (Except.error MetadataError.tableAlreadyExists, []) := by
  simp [DatabaseMetadata.create_table, h1, hm, ht]

/-- C5 witness: creating `Users`, which the catalog already holds, fails with
the table-already-exists error and submits nothing. -/
theorem apply_create_table_exists_witness :
    DatabaseMetadata.create_table wFetch scCreateUsers
      = (Except.error MetadataError.tableAlreadyExists, []) :=
  apply_create_table_exists wFetch scCreateUsers wModels
    (by rfl) (by rfl) (by rfl)

/-- C6: a request whose variant tag does not match the apply operation
invoked fails with the type-mismatch error before any catalog read (the
result is the same for every fetch primitive) and with no DDL submission. -/
theorem apply_type_mismatch (sc1 sc2 sc3 : SchemaChange)
    (h1 : sc1.kind ≠ UpdateKind.columnUpdate)
    (h2 : sc2.kind ≠ UpdateKind.createTableUpdate)
    (h3 : sc3.kind ≠ UpdateKind.indexUpdate) :
    ∀ (τ : Type) (F : CatalogFetch τ),
    DatabaseMetadata.column_update F sc1
      = (Except.error MetadataError.schemaChangeTypeMismatch, [])
    ∧ DatabaseMetadata.create_table F sc2
      = (Except.error MetadataError.schemaChangeTypeMismatch, [])
    ∧ DatabaseMetadata.index_update F sc3
      = (Except.error MetadataError.schemaChangeTypeMismatch, []) := by
  intro τ F
  refine ⟨?_, ?_, ?_⟩
  · simp [DatabaseMetadata.column_update, h1]
  · simp [DatabaseMetadata.create_table, h2]
  · simp [DatabaseMetadata.index_update, h3]

/-- C6 witness: an index update handed to `column_update` and column updates
handed to `create_table` and `index_update` all fail with the type-mismatch
error and submit nothing. -/
theorem apply_type_mismatch_witness :
    DatabaseMetadata.column_update wFetch scIdxOrders
      = (Except.error MetadataError.schemaChangeTypeMismatch, [])
    ∧ DatabaseMetadata.create_table wFetch scColOrders
      = (Except.error MetadataError.schemaChangeTypeMismatch, [])
    ∧ DatabaseMetadata.index_update wFetch scColOrders
      = (Except.error MetadataError.schemaChangeTypeMismatch, []) :=
  apply_type_mismatch scIdxOrders scColOrders scColOrders
    (by simp [scIdxOrders]) (by simp [scColOrders]) (by simp [scColOrders])
    Unit wFetch

/-- C7: for each of the three variants, when validation rejects, the apply
method fails with the invalid-schema-change error and no DDL is rendered or
submitted. -/
theorem apply_validate_failure {τ : Type} (F : CatalogFetch τ)
    (sc1 sc2 sc3 : SchemaChange) (ms : Dict String ModelDescriptor)
    (model1 model3 : ModelDescriptor)
    (h1 : sc1.kind = UpdateKind.columnUpdate)
    (h2 : sc2.kind = UpdateKind.createTableUpdate)
    (h3 : sc3.kind = UpdateKind.indexUpdate)
    (hm : DatabaseMetadata.models F none = Except.ok ms)
    (hg1 : Dict.get? ms sc1.table = some model1)
    (hv1 : sc1.validate (some model1) = false)
    (hg2 : Dict.get? ms sc2.table = none)
    (hv2 : sc2.validate none = false)
    (hg3 : Dict.get? ms sc3.table = some model3)
    (hv3 : sc3.validate (some model3) = false) :
    DatabaseMetadata.column_update F sc1
      = (Except.error MetadataError.invalidSchemaChange, [])
    ∧ DatabaseMetadata.create_table F sc2
      = (Except.error MetadataError.invalidSchemaChange, [])
    ∧ DatabaseMetadata.index_update F sc3
      = (Except.error MetadataError.invalidSchemaChange, []) := by
  refine ⟨?_, ?_, ?_⟩
  · simp [DatabaseMetadata.column_update, h1, hm, hg1, hv1]
  · simp [DatabaseMetadata.create_table, h2, hm, hg2, hv2]
  · simp [DatabaseMetadata.index_update, h3, hm, hg3, hv3]

/-- C7 witness: requests whose validation rejects fail with the
invalid-schema-change error and submit nothing, for all three variants. -/
theorem apply_validate_failure_witness :
    DatabaseMetadata.column_update wFetch scColUsersBad
      = (Except.error MetadataError.invalidSchemaChange, [])
    ∧ DatabaseMetadata.create_table wFetch scCreateOrdersBad
      = (Except.error MetadataError.invalidSchemaChange, [])
    ∧ DatabaseMetadata.index_update wFetch scIdxUsersBad
      = (Except.error MetadataError.invalidSchemaChange, []) :=
  apply_validate_failure wFetch scColUsersBad scCreateOrdersBad scIdxUsersBad
    wModels
    { primary_index_keys := ["id"], schema := wSchemaUsers, table := "Users" }
    { primary_index_keys := ["id"], schema := wSchemaUsers, table := "Users" }
    (by rfl) (by rfl) (by rfl) (by rfl) (by rfl) (by rfl) (by rfl) (by rfl)
    (by rfl) (by rfl)

/-- C10: `models` forwards its transaction handle unchanged to both catalog
reads: two fetch primitives that agree at one handle produce the same tables
map, index map and model map at that handle. -/
theorem models_single_snapshot {τ : Type} (F G : CatalogFetch τ)
    (txn : Option τ)
    (hc : F.columnWhere txn = G.columnWhere txn)
    (hi : F.indexColumnWhere txn = G.indexColumnWhere txn)
    (hx : F.indexWhere txn = G.indexWhere txn) :
    DatabaseMetadata._tables F txn = DatabaseMetadata._tables G txn
    ∧ DatabaseMetadata._indexes F txn = DatabaseMetadata._indexes G txn
    ∧ DatabaseMetadata.models F txn = DatabaseMetadata.models G txn := by
  have h1 : DatabaseMetadata._tables F txn = DatabaseMetadata._tables G txn := by
    simp only [DatabaseMetadata._tables, hc]
  have h2 : DatabaseMetadata._indexes F txn = DatabaseMetadata._indexes G txn := by
    simp only [DatabaseMetadata._indexes, hi, hx]
  exact ⟨h1, h2, by simp only [DatabaseMetadata.models, h1, h2]⟩

/-- C10 witness: `wFetchA` and `wFetchB` differ at handle `some true` but
agree at `some false`, so at `some false` they yield identical metadata. -/
theorem models_single_snapshot_witness :
    DatabaseMetadata._tables wFetchA (some false)
      = DatabaseMetadata._tables wFetchB (some false)
    ∧ DatabaseMetadata._indexes wFetchA (some false)
      = DatabaseMetadata._indexes wFetchB (some false)
    ∧ DatabaseMetadata.models wFetchA (some false)
      = DatabaseMetadata.models wFetchB (some false) :=
  models_single_snapshot wFetchA wFetchB (some false)
    (funext fun _ => rfl) (funext fun _ => rfl) (funext fun _ => rfl)
